import Mathlib

/-!
Verification of the FakeNewsVerificaTon ingestion & normalization pipeline.

The development shallowly embeds the core server code:
* `src/app/api/check/route.ts` (the `POST` orchestrator),
* `src/lib/analyzePipeline` (`analyzePipeline`, fingerprinting),
* `src/lib/rateLimitUpstash` (`inMemoryCheck`, `checkRateLimitAsync`),
* `src/lib/services/extractor.audio.ts` (`extractAudioTranscript`,
  `srtToJson`, `segmentsToText`, the poll loop),
* `src/lib/services/extractor.youtube.ts` (`extractYouTubeTranscript`,
  `buildTranscriptResult`).

JavaScript strings are embedded as `List Char`; network calls become
oracle parameters; `Date.now()` timestamps become explicit `Nat`
milliseconds.  Node's `crypto.createHash('sha256')` is embedded as a
full executable SHA-256 (FIPS 180-4) over the UTF-8 bytes of the input.
-/

namespace FNV

/-- JavaScript string values, embedded as lists of characters. -/
abbrev JStr := List Char

/-! ## SHA-256 (model of Node `crypto.createHash('sha256').digest('hex')`) -/

/-- 2^32, the modulus for 32-bit words. -/
def M32 : Nat := 4294967296

/-- Addition modulo 2^32. -/
def add32 (a b : Nat) : Nat := (a + b) % M32

/-- Right rotation of a 32-bit word by `n` bits. -/
def rotr32 (n x : Nat) : Nat := ((x >>> n) ||| (x <<< (32 - n))) % M32

/-- SHA-256 small sigma 0. -/
def smallS0 (x : Nat) : Nat := (rotr32 7 x) ^^^ ((rotr32 18 x) ^^^ (x >>> 3))

/-- SHA-256 small sigma 1. -/
def smallS1 (x : Nat) : Nat := (rotr32 17 x) ^^^ ((rotr32 19 x) ^^^ (x >>> 10))

/-- SHA-256 big sigma 0. -/
def bigS0 (x : Nat) : Nat := (rotr32 2 x) ^^^ ((rotr32 13 x) ^^^ (rotr32 22 x))

/-- SHA-256 big sigma 1. -/
def bigS1 (x : Nat) : Nat := (rotr32 6 x) ^^^ ((rotr32 11 x) ^^^ (rotr32 25 x))

/-- SHA-256 choice function. -/
def ch32 (x y z : Nat) : Nat := (x &&& y) ^^^ ((x ^^^ 4294967295) &&& z)

/-- SHA-256 majority function. -/
def maj32 (x y z : Nat) : Nat := ((x &&& y) ^^^ (x &&& z)) ^^^ (y &&& z)

/-- The 64 SHA-256 round constants of FIPS 180-4, in decimal. -/
def K256 : List Nat :=
  [1116352408, 1899447441, 3049323471, 3921009573, 961987163, 1508970993,
   2453635748, 2870763221, 3624381080, 310598401, 607225278, 1426881987,
   1925078388, 2162078206, 2614888103, 3248222580, 3835390401, 4022224774,
   264347078, 604807628, 770255983, 1249150122, 1555081692, 1996064986,
   2554220882, 2821834349, 2952996808, 3210313671, 3336571891, 3584528711,
   113926993, 338241895, 666307205, 773529912, 1294757372, 1396182291,
   1695183700, 1986661051, 2177026350, 2456956037, 2730485921, 2820302411,
   3259730800, 3345764771, 3516065817, 3600352804, 4094571909, 275423344,
   430227734, 506948616, 659060556, 883997877, 958139571, 1322822218,
   1537002063, 1747873779, 1955562222, 2024104815, 2227730452, 2361852424,
   2428436474, 2756734187, 3204031479, 3329325298]

/-- SHA-256 working state: eight 32-bit words. -/
structure H8 where
  a : Nat
  b : Nat
  c : Nat
  d : Nat
  e : Nat
  f : Nat
  g : Nat
  h : Nat
deriving Repr, DecidableEq

/-- The SHA-256 initial hash value of FIPS 180-4, in decimal. -/
def sha256init : H8 :=
  ⟨1779033703, 3144134277, 1013904242, 2773480762,
   1359893119, 2600822924, 528734635, 1541459225⟩

/-- `n`-byte big-endian encoding of `x` (most-significant byte first). -/
def beBytes : Nat → Nat → List Nat
  | 0, _ => []
  | n + 1, x => beBytes n (x / 256) ++ [x % 256]

/-- SHA-256 message padding: append `0x80`, zero bytes, and the 64-bit
big-endian bit length, reaching a multiple of 64 bytes. -/
def sha256pad (msg : List Nat) : List Nat :=
  msg ++ [128] ++ List.replicate ((119 - msg.length % 64) % 64) 0 ++ beBytes 8 (msg.length * 8)

/-- Split into 64-byte chunks (fuel-based so the kernel can reduce it). -/
def chunksAux : Nat → List Nat → List (List Nat)
  | 0, _ => []
  | _, [] => []
  | fuel + 1, l => l.take 64 :: chunksAux fuel (l.drop 64)

/-- Split a byte list into 64-byte chunks. -/
def chunks64 (l : List Nat) : List (List Nat) := chunksAux l.length l

/-- Group bytes 4-by-4 into big-endian 32-bit words. -/
def bytesToWords : List Nat → List Nat
  | b0 :: b1 :: b2 :: b3 :: rest => (((b0 * 256 + b1) * 256 + b2) * 256 + b3) :: bytesToWords rest
  | _ => []

/-- Message-schedule extension; `acc` holds the words in reverse order. -/
def scheduleAux : Nat → List Nat → List Nat
  | 0, acc => acc
  | n + 1, acc =>
      scheduleAux n
        (add32 (add32 (smallS1 (acc.getD 1 0)) (acc.getD 6 0))
               (add32 (smallS0 (acc.getD 14 0)) (acc.getD 15 0)) :: acc)

/-- Extend 16 message words to the 64-entry SHA-256 schedule. -/
def schedule (w16 : List Nat) : List Nat := (scheduleAux 48 w16.reverse).reverse

/-- One SHA-256 compression round. -/
def roundStep (s : H8) (kw : Nat × Nat) : H8 :=
  let t1 := add32 s.h (add32 (bigS1 s.e) (add32 (ch32 s.e s.f s.g) (add32 kw.1 kw.2)))
  let t2 := add32 (bigS0 s.a) (maj32 s.a s.b s.c)
  ⟨add32 t1 t2, s.a, s.b, s.c, add32 s.d t1, s.e, s.f, s.g⟩

/-- Process one 64-byte block. -/
def processBlock (h0 : H8) (block : List Nat) : H8 :=
  let s := (K256.zip (schedule (bytesToWords block))).foldl roundStep h0
  ⟨add32 h0.a s.a, add32 h0.b s.b, add32 h0.c s.c, add32 h0.d s.d,
   add32 h0.e s.e, add32 h0.f s.f, add32 h0.g s.g, add32 h0.h s.h⟩

/-- SHA-256 digest of a byte list, as 32 bytes. -/
def sha256bytes (msg : List Nat) : List Nat :=
  let fin := (chunks64 (sha256pad msg)).foldl processBlock sha256init
  beBytes 4 fin.a ++ beBytes 4 fin.b ++ beBytes 4 fin.c ++ beBytes 4 fin.d ++
  beBytes 4 fin.e ++ beBytes 4 fin.f ++ beBytes 4 fin.g ++ beBytes 4 fin.h

/-- Lower-case hexadecimal digit. -/
def hexDigit (n : Nat) : Char := if n < 10 then Char.ofNat (48 + n) else Char.ofNat (87 + n)

/-- Two-digit lower-case hex encoding of one byte. -/
def byteToHex (b : Nat) : List Char := [hexDigit (b / 16), hexDigit (b % 16)]

/-- UTF-8 encoding of one character. -/
def utf8Bytes (c : Char) : List Nat :=
  let n := c.toNat
  if n < 128 then [n]
  else if n < 2048 then [192 + n / 64, 128 + n % 64]
  else if n < 65536 then [224 + n / 4096, 128 + (n / 64) % 64, 128 + n % 64]
  else [240 + n / 262144, 128 + (n / 4096) % 64, 128 + (n / 64) % 64, 128 + n % 64]

/-- UTF-8 bytes of a string. -/
def strBytes (s : JStr) : List Nat := s.foldr (fun c acc => utf8Bytes c ++ acc) []

/-- Hex digest of SHA-256 over a string's UTF-8 bytes — the model of
`crypto.createHash('sha256').update(s).digest('hex')`. -/
def sha256Hex (s : JStr) : JStr :=
  (sha256bytes (strBytes s)).foldr (fun b acc => byteToHex b ++ acc) []

/-! ## JavaScript string primitives over `List Char` -/

/-- The characters matched by the JavaScript `\s` class (the common ones:
space, tab, newline, carriage return, vertical tab, form feed). -/
def isWsChar (c : Char) : Bool :=
  c = ' ' || c = Char.ofNat 9 || c = Char.ofNat 10 || c = Char.ofNat 13 ||
  c = Char.ofNat 11 || c = Char.ofNat 12

/-- `String.prototype.trim()`: strip whitespace from both ends. -/
def jsTrim (s : JStr) : JStr :=
  ((s.dropWhile isWsChar).reverse.dropWhile isWsChar).reverse

/-- Does `s` start with `pat`? -/
def startsWithL : JStr → JStr → Bool
  | _, [] => true
  | [], _ :: _ => false
  | c :: cs, p :: ps => c = p && startsWithL cs ps

/-- `String.prototype.includes(pat)` for a non-empty literal `pat`. -/
def containsL : JStr → JStr → Bool
  | [], pat => startsWithL [] pat
  | s@(_ :: rest), pat => startsWithL s pat || containsL rest pat

/-- Fuel-based worker for `jsSplit`; `acc` is the current piece, reversed. -/
def jsSplitAux (sep : JStr) : Nat → JStr → JStr → List JStr
  | _, acc, [] => [acc.reverse]
  | 0, acc, l => [acc.reverse ++ l]
  | fuel + 1, acc, l@(c :: rest) =>
    if startsWithL l sep then acc.reverse :: jsSplitAux sep fuel [] (l.drop sep.length)
    else jsSplitAux sep fuel (c :: acc) rest

/-- `String.prototype.split(sep)` for a non-empty literal separator `sep`:
non-overlapping matches, left to right. -/
def jsSplit (sep s : JStr) : List JStr := jsSplitAux sep s.length [] s

/-- Fuel-based worker for `wsCollapse`. -/
def wsCollapseAux : Nat → JStr → JStr
  | 0, l => l
  | _, [] => []
  | fuel + 1, c :: rest =>
    if isWsChar c then ' ' :: wsCollapseAux fuel (rest.dropWhile isWsChar)
    else c :: wsCollapseAux fuel rest

/-- `s.replace(/\s+/g, ' ')`: collapse every whitespace run to one space. -/
def wsCollapse (s : JStr) : JStr := wsCollapseAux s.length s

/-- Fuel-based worker for `replaceAll`. -/
def replaceAllAux (pat repl : JStr) : Nat → JStr → JStr
  | 0, l => l
  | _, [] => []
  | fuel + 1, l@(c :: rest) =>
    if startsWithL l pat then repl ++ replaceAllAux pat repl fuel (l.drop pat.length)
    else c :: replaceAllAux pat repl fuel rest

/-- `s.replace(/pat/g, repl)` for a non-empty literal `pat`. -/
def replaceAll (pat repl s : JStr) : JStr := replaceAllAux pat repl s.length s

/-! ## RateLimiter (`src/lib/rateLimitUpstash`, `src/unnamed/part_001`)

The in-memory fallback keeps, per identifier, the list of admission
timestamps (`Date.now()` milliseconds) inside the trailing window.  The
`hits` map is keyed by identifier and distinct identifiers never share
state, so the embedding models the timestamp list of one identifier;
`Date.now()` becomes the explicit `now` argument. -/

/-- `const windowMs = 60_000`. -/
def windowMs : Nat := 60000

/-- `const maxRequests = 10`. -/
def maxRequests : Nat := 10

/-- The lazy purge `timestamps.filter(t => now - t < windowMs)`. -/
def purge (now : Nat) (ts : List Nat) : List Nat :=
  ts.filter (fun t => now - t < windowMs)

/-- `inMemoryCheck` for one identifier: returns the decision
`(allowed, remaining)` and the updated timestamp list. -/
def inMemoryCheck (now : Nat) (ts : List Nat) : (Bool × Nat) × List Nat :=
  let valid := purge now ts
  if maxRequests ≤ valid.length then ((false, 0), valid)
  else ((true, maxRequests - (valid.length + 1)), valid ++ [now])

/-- Outcome of `limiter.limit(identifier)` on the Upstash backend: the
promise either resolves with `{success, remaining, reset}` or rejects. -/
inductive BackendCall where
  | resolves (success : Bool) (remaining : Nat) (reset : Nat)
  | rejects (msg : JStr)
deriving DecidableEq, Repr

/-- `checkRateLimitAsync(identifier)`: if the Upstash limiter is
configured, `await limiter.limit(identifier)` — the source has no
`try`/`catch` here, so a rejected backend promise propagates
(`Except.error`); otherwise the in-memory fallback decides. -/
def checkRateLimitAsync (upstashConfigured : Bool) (backend : BackendCall)
    (now : Nat) (ts : List Nat) : Except JStr ((Bool × Nat) × List Nat) :=
  if upstashConfigured then
    match backend with
    | .resolves success remaining _ => .ok ((success, remaining), ts)
    | .rejects msg => .error msg
  else
    .ok (inMemoryCheck now ts)

/-- Run a sequence of in-memory checks for one identifier from state
`st`, returning the timestamps of the allowed checks. -/
def runAllowed : List Nat → List Nat → List Nat
  | _, [] => []
  | st, now :: rest =>
    let r := inMemoryCheck now st
    if r.1.1 then now :: runAllowed r.2 rest else runAllowed r.2 rest

/-- `t` lies in the trailing window `(T - windowMs, T]`. -/
def inWindow (T t : Nat) : Bool := t ≤ T && T - t < windowMs

/-! ## Sanitizer -/

/-- Characters the sanitizer keeps (everything except angle brackets,
backtick, curly braces, and control characters other than newline). -/
def keepChar (c : Char) : Bool :=
  !(c = '<' || c = '>' || c = Char.ofNat 96 || c = Char.ofNat 123 ||
    c = Char.ofNat 125 || (c.toNat < 32 && c.toNat ≠ 10))

/-- Modelled from the spec: `sanitizeForLLM` lives in
`src/lib/validations`, which is absent from the available sources (only
its caller `src/app/api/check/route.ts` is present).  Following §4.5 of
the spec, it is deterministic and pure, strips characters likely to be
interpreted as instructions to the downstream model or as markup that
could break structured-output parsing, and truncates to `maxLength`. -/
def sanitizeForLLM (text : JStr) (maxLength : Nat) : JStr :=
  (text.filter keepChar).take maxLength

/-! ## Subtitle-document parsing (`src/lib/services/extractor.audio.ts`) -/

/-- One parsed SRT segment.  The source's `end` field is called
`endTime` here because `end` is a Lean keyword. -/
structure SrtSegment where
  index : JStr
  start : JStr
  endTime : JStr
  text : JStr
  instrumental : Bool
deriving DecidableEq, Repr

/-- The music-note glyph `🎵` marking instrumental segments. -/
def musicNote : JStr := ['🎵']

/-- A line consisting only of `\s` characters (an empty line counts). -/
def isWsOnly (l : JStr) : Bool := l.all isWsChar

/-- Model of `srt.trim().split(/\n\s*\n/)`: split the trimmed document
into lines, drop runs of whitespace-only lines (each such interior run
is exactly one regex separator match), and rejoin each remaining run.
On a whitespace-only document JavaScript returns `[""]` while this
returns `[]`; `srtToJson` skips that block either way. -/
def splitBlocks (s : JStr) : List JStr :=
  (((jsSplit [Char.ofNat 10] (jsTrim s)).splitOnP isWsOnly).filter
    (fun g => !g.isEmpty)).map (List.intercalate [Char.ofNat 10])

/-- The body of the `for` loop of `srtToJson`: parse one block, `none`
meaning `continue` (the block is skipped). -/
def parseBlock (block : JStr) : Option SrtSegment :=
  let lines := jsSplit [Char.ofNat 10] block
  if lines.length < 3 then none
  else
    let index := jsTrim (lines.getD 0 [])
    let timeLine := lines.getD 1 []
    let parts := jsSplit " --> ".data timeLine
    if parts.length < 2 then none
    else
      some { index := index
             start := jsTrim (parts.getD 0 [])
             endTime := jsTrim (parts.getD 1 [])
             text := jsTrim (List.intercalate [' '] (lines.drop 2))
             instrumental :=
               decide (jsTrim (List.intercalate [' '] (lines.drop 2)) = musicNote) ||
               containsL (jsTrim (List.intercalate [' '] (lines.drop 2))) musicNote }

/-- `srtToJson`: convert an SRT document to its segment list, skipping
malformed blocks. -/
def srtToJson (srt : JStr) : List SrtSegment := (splitBlocks srt).filterMap parseBlock

/-- `segmentsToText`: drop instrumental segments, join the texts with a
space, collapse whitespace, trim. -/
def segmentsToText (segments : List SrtSegment) : JStr :=
  jsTrim (wsCollapse (List.intercalate [' ']
    ((segments.filter (fun s => !s.instrumental)).map SrtSegment.text)))

/-! ## TranscriptionJobClient (`extractAudioTranscript`) -/

/-- `const MAX_POLL_ATTEMPTS = 60`. -/
def MAX_POLL_ATTEMPTS : Nat := 60

/-- `const POLL_INTERVAL_MS = 3_000`. -/
def POLL_INTERVAL_MS : Nat := 3000

/-- Structured result of one audio extraction (`AudioExtractionResult`). -/
structure AudioExtractionResult where
  ok : Bool
  text : Option JStr
  segments : Option (List SrtSegment)
  warnings : List JStr
  error : Option JStr
deriving DecidableEq, Repr

/-- Outcome of one status poll: the fetch promise (or its `.json()`)
rejects — a network-level failure the source does not catch inside the
loop, so it is thrown to the function's surrounding `catch` —, or the
fetch resolves with a non-2xx response (`!pollRes.ok`, swallowed with
`continue`), or it yields the job's `status` field. -/
inductive PollOutcome where
  | reject (msg : JStr)
  | httpError
  | status (s : JStr)
deriving DecidableEq, Repr

/-- `'PROCESSING'`. -/
def PROCESSING : JStr := "PROCESSING".data

/-- `'DONE'`. -/
def DONE : JStr := "DONE".data

/-- The poll loop `while (status === 'PROCESSING' && attempts < MAX)`;
`env n` is the outcome of the `n`-th poll request.  A non-2xx poll
response consumes the attempt (`attempts++` happens before the fetch)
and leaves the status unchanged (`continue`); a rejected poll fetch
throws out of the loop (`Except.error`, landing in the function's
`catch`).  The fuel is the number of attempts still available, so the
loop is structurally bounded. -/
def pollLoopAux (env : Nat → PollOutcome) : Nat → Nat → JStr → Except JStr (JStr × Nat)
  | 0, attempts, status => .ok (status, attempts)
  | fuel + 1, attempts, status =>
    if status = PROCESSING then
      match env (attempts + 1) with
      | .reject msg => .error msg
      | .httpError => pollLoopAux env fuel (attempts + 1) status
      | .status s => pollLoopAux env fuel (attempts + 1) s
  else .ok (status, attempts)

/-- The poll loop started at the job's initial status with
`attempts = 0`: returns the final status and the attempts consumed, or
the thrown failure. -/
def pollLoop (env : Nat → PollOutcome) (initialStatus : JStr) :
    Except JStr (JStr × Nat) :=
  pollLoopAux env MAX_POLL_ATTEMPTS 0 initialStatus

/-- Model of `parseAudioDataUrl` / `parseDataUrl`: the anchored regex
`^data:([^;]+);base64,(.+)$` (with the `s` flag), returning the media
type and the base64 payload.  The decoded `Buffer` and the
mime-to-extension table only feed the opaque upload, so the payload is
kept as text. -/
def parseDataUrlL (content : JStr) : Option (JStr × JStr) :=
  if startsWithL content "data:".data then
    let rest := content.drop 5
    let mime := rest.takeWhile (fun c => c ≠ ';')
    let rest2 := rest.drop mime.length
    if !mime.isEmpty && startsWithL rest2 ";base64,".data then
      let payload := rest2.drop 8
      if !payload.isEmpty then some (mime, payload) else none
    else none
  else none

/-- The external Whisper-SRT service as seen by one extraction call:
upload response, initial job status, poll outcomes, download response,
and the downloaded SRT document. -/
structure WhisperEnv where
  uploadOk : Bool
  uploadStatus : Nat
  jobStatus : JStr
  poll : Nat → PollOutcome
  downloadOk : Bool
  downloadStatus : Nat
  srtText : JStr

/-- `'Serviço de transcrição de áudio não configurado (WHISPER_SRT_API_KEY).'` -/
def msgWhisperNoKey : JStr :=
  "Serviço de transcrição de áudio não configurado (WHISPER_SRT_API_KEY).".data

/-- `'Tempo esgotado aguardando transcrição.'` -/
def msgPollTimeout : JStr := "Tempo esgotado aguardando transcrição.".data

/-- `extractAudioTranscript(audioDataUrl)` with the credential and the
external service passed explicitly.  `apiKey = none` models an unset
`WHISPER_SRT_API_KEY` environment variable. -/
def extractAudioTranscript (apiKey : Option JStr) (env : WhisperEnv)
    (audioDataUrl : JStr) : AudioExtractionResult :=
  match apiKey with
  | none =>
    { ok := false, text := none, segments := none, warnings := []
      error := some msgWhisperNoKey }
  | some _ =>
    match parseDataUrlL audioDataUrl with
    | none =>
      { ok := false, text := none, segments := none, warnings := []
        error := some "Formato de áudio inválido. Envie um arquivo de áudio válido.".data }
    | some _ =>
      if !env.uploadOk then
        { ok := false, text := none, segments := none, warnings := []
          error := some ("Falha ao enviar áudio para transcrição (".data ++
                         (toString env.uploadStatus).data ++ ").".data) }
      else
        match pollLoop env.poll env.jobStatus with
        | .error msg =>
          -- the rejected poll fetch lands in the `catch (err)` of the source
          { ok := false, text := none, segments := none, warnings := []
            error := some ("Erro ao transcrever áudio: ".data ++
                           (if msg.isEmpty then "erro desconhecido".data else msg)) }
        | .ok polled =>
        if polled.1 ≠ DONE then
          { ok := false, text := none, segments := none, warnings := []
            error := some (if MAX_POLL_ATTEMPTS ≤ polled.2 then msgPollTimeout
                           else "Transcrição falhou (status: ".data ++ polled.1 ++ ").".data) }
        else if !env.downloadOk then
          { ok := false, text := none, segments := none, warnings := []
            error := some "Falha ao baixar a transcrição gerada.".data }
        else
          let segments := srtToJson env.srtText
          let fullText := segmentsToText segments
          if fullText.length < 5 then
            { ok := false, text := none, segments := none
              warnings := ["Nenhuma fala detectada no áudio.".data]
              error := some "Transcrição do áudio está vazia ou contém apenas instrumentais.".data }
          else
            { ok := true, text := some fullText, segments := some segments
              warnings := if segments.any (fun s => s.instrumental) then
                  ["Partes instrumentais (🎵) foram identificadas e removidas da análise.".data]
                else []
              error := none }

/-! ## CaptionExtractor (`src/lib/services/extractor.youtube.ts`) -/

/-- `ExtractionResult` (shape shared by all extractors). -/
structure ExtractionResult where
  ok : Bool
  text : Option JStr
  title : Option JStr
  sourceUrl : Option JStr
  warnings : List JStr
  error : Option JStr
deriving DecidableEq, Repr

/-- A character of the class `[\w-]`. -/
def isWordChar (c : Char) : Bool :=
  ('a' ≤ c && c ≤ 'z') || ('A' ≤ c && c ≤ 'Z') || ('0' ≤ c && c ≤ '9') ||
  c = '_' || c = '-'

/-- The literal alternatives of `YOUTUBE_ID_REGEX`, each followed by the
11-character id group. -/
def ytMarkers : List JStr :=
  ["youtube.com/watch?v=".data, "youtube.com/shorts/".data,
   "youtube.com/embed/".data, "youtu.be/".data]

/-- Try to match `YOUTUBE_ID_REGEX` at the start of `s`, returning the
captured 11-character `[\w-]{11}` id. -/
def tryYtAt (s : JStr) : Option JStr :=
  (ytMarkers.filterMap (fun p =>
    if startsWithL s p then
      let cand := (s.drop p.length).take 11
      if cand.length = 11 && cand.all isWordChar then some cand else none
    else none)).head?

/-- Leftmost match of `YOUTUBE_ID_REGEX` over the whole string
(`url.match(...)`, capture group 1). -/
def findYtId : JStr → Option JStr
  | [] => none
  | s@(_ :: rest) =>
    match tryYtAt s with
    | some v => some v
    | none => findYtId rest

/-- `'Inconclusivo: este vídeo não possui legenda/transcrição disponível
para análise. Cole a transcrição ou envie o áudio.'` -/
def msgNoCaptions : JStr :=
  "Inconclusivo: este vídeo não possui legenda/transcrição disponível para análise. Cole a transcrição ou envie o áudio.".data

/-- `'Transcrição obtida em idioma alternativo (não pt-BR).'` -/
def msgFallbackLang : JStr :=
  "Transcrição obtida em idioma alternativo (não pt-BR).".data

/-- `'Inconclusivo: transcrição muito curta para análise. Cole a
transcrição completa ou envie o áudio.'` -/
def msgTooShort : JStr :=
  "Inconclusivo: transcrição muito curta para análise. Cole a transcrição completa ou envie o áudio.".data

/-- `'Transcrição truncada em 10.000 caracteres.'` -/
def msgTruncated : JStr := "Transcrição truncada em 10.000 caracteres.".data

/-- The HTML-entity replacement chain applied by
`buildTranscriptResult` after whitespace normalization. -/
def entityClean (text : JStr) : JStr :=
  jsTrim (replaceAll "&quot;".data ['"']
    (replaceAll ('&' :: '#' :: '3' :: '9' :: [';']) [Char.ofNat 39]
      (replaceAll "&gt;".data ['>']
        (replaceAll "&lt;".data ['<']
          (replaceAll "&amp;".data ['&'] (wsCollapse text))))))

/-- `buildTranscriptResult(text, videoId, url, warnings)`. -/
def buildTranscriptResult (text videoId url : JStr) (warnings : List JStr) :
    ExtractionResult :=
  let cleaned := entityClean text
  if cleaned.length < 100 then
    { ok := false, text := none, title := none, sourceUrl := none
      warnings := warnings, error := some msgTooShort }
  else
    let truncated := 10000 < cleaned.length
    let cleaned2 := if truncated then cleaned.take 10000 else cleaned
    { ok := true
      text := some ("[Transcrição do vídeo YouTube: ".data ++ videoId ++
                    "]".data ++ [Char.ofNat 10, Char.ofNat 10] ++ cleaned2)
      title := some ("Vídeo YouTube: ".data ++ videoId)
      sourceUrl := some url
      warnings := if truncated then warnings ++ [msgTruncated] else warnings
      error := none }

/-- One `YoutubeTranscript.fetchTranscript` call: the promise resolves
with a list of items (their `text` fields) or rejects. -/
inductive FetchResult where
  | items (l : List JStr)
  | err (msg : JStr)
deriving DecidableEq, Repr

/-- `extractYouTubeTranscript(url)` with the caption source passed as
an oracle `fetch` keyed by the language hint (`some 'pt'` for the
preferred-language call, `none` for the hint-less fallback call).  The
second component of the result is the log of issued fetches, in order,
recorded by their language hints. -/
def extractYouTubeTranscript (fetch : Option JStr → FetchResult) (url : JStr) :
    ExtractionResult × List (Option JStr) :=
  match findYtId url with
  | none =>
    ({ ok := false, text := none, title := none, sourceUrl := none
       warnings := []
       error := some "Não foi possível identificar o ID do vídeo no link do YouTube.".data }, [])
  | some videoId =>
    match fetch (some "pt".data) with
    | .err msg =>
      -- the `catch` branch of the source
      (if containsL msg "disabled".data || containsL msg "not available".data ||
          containsL msg "Could not".data then
        { ok := false, text := none, title := none, sourceUrl := none
          warnings := [], error := some msgNoCaptions }
      else
        { ok := false, text := none, title := none, sourceUrl := none
          warnings := []
          error := some ("Erro ao obter transcrição do YouTube: ".data ++
                         (if msg.isEmpty then "erro desconhecido".data else msg) ++
                         ". Cole a transcrição ou envie o áudio.".data) },
       [some "pt".data])
    | .items primary =>
      if primary.isEmpty then
        match fetch none with
        | .err _ =>
          -- `.catch(() => null)` turns the rejection into an absent result
          ({ ok := false, text := none, title := none, sourceUrl := none
             warnings := [], error := some msgNoCaptions },
           [some "pt".data, none])
        | .items fallback =>
          if fallback.isEmpty then
            ({ ok := false, text := none, title := none, sourceUrl := none
               warnings := [], error := some msgNoCaptions },
             [some "pt".data, none])
          else
            (buildTranscriptResult (jsTrim (List.intercalate [' '] fallback))
               videoId url [msgFallbackLang],
             [some "pt".data, none])
      else
        (buildTranscriptResult (jsTrim (List.intercalate [' '] primary))
           videoId url [],
         [some "pt".data])

/-! ## AnalysisOrchestrator (`src/lib/analyzePipeline`, `analyzePipeline`) -/

/-- The four scores of the structured verdict. -/
structure Scores where
  fakeProbability : Nat
  verifiableTruth : Nat
  biasFraming : Nat
  manipulationRisk : Nat
deriving DecidableEq, Repr

/-- Fields of the model's JSON that the defaulting step
(`parsed.x = parsed.x || ...`) can fill in. -/
structure ParsedModelJson where
  scores : Option Scores
  verdict : Option JStr
  warnings : List JStr
deriving DecidableEq, Repr

/-- The model call's outcome as seen by `analyzePipeline`: either the
response text fails `JSON.parse` (after fence stripping) or it parses. -/
inductive ModelOutput where
  | unparseable
  | parsed (p : ParsedModelJson)
deriving DecidableEq, Repr

/-- The slice of `analyzePipeline`'s return value the claims are about:
`ok`, `meta.fingerprint`, `meta.warnings`, `summary.verdict`, `scores`,
and the `meta.sourceUrl` the route may attach. -/
structure AnalysisResult where
  ok : Bool
  fingerprint : JStr
  verdict : JStr
  scores : Scores
  metaWarnings : List JStr
  sourceUrl : Option JStr
deriving DecidableEq, Repr

/-- The fallback scores `{ fakeProbability: 50, verifiableTruth: 20,
biasFraming: 40, manipulationRisk: 30 }` used when `JSON.parse` fails. -/
def fallbackScores : Scores := ⟨50, 20, 40, 30⟩

/-- `parsed.scores = parsed.scores || {0,0,0,0}`. -/
def defaultScores : Scores := ⟨0, 0, 0, 0⟩

/-- The fixed warning of the unparseable-JSON fallback object. -/
def fallbackWarning : JStr :=
  "Analise baseada apenas no conteudo fornecido. Nao substitui verificacao profissional.".data

/-- `analyzePipeline(inputType, content)`: the fingerprint is
`sha256(content)` over the `content` argument; the prompt construction
only feeds the model call, which is the `model` oracle; `ok := true`
and `meta.fingerprint := fingerprint` are set unconditionally before
returning. -/
def analyzePipeline (inputType content : JStr) (model : ModelOutput) :
    AnalysisResult :=
  let fingerprint := sha256Hex content
  match model with
  | .unparseable =>
    { ok := true, fingerprint := fingerprint
      verdict := "Inconclusivo".data, scores := fallbackScores
      metaWarnings := [fallbackWarning], sourceUrl := none }
  | .parsed p =>
    { ok := true, fingerprint := fingerprint
      verdict := p.verdict.getD "Inconclusivo".data
      scores := p.scores.getD defaultScores
      metaWarnings := p.warnings, sourceUrl := none }

/-! ## The `/api/check` route (`src/app/api/check/route.ts`, `POST`) -/

/-- One HTTP-level response of the route: the status code, and either
the error envelope `{ok:false, error, message}` or the analysis result. -/
structure RouteResponse where
  status : Nat
  ok : Bool
  errorKind : Option JStr
  message : Option JStr
  result : Option AnalysisResult
deriving DecidableEq, Repr

/-- Modelled from the spec: `analyzeSchema` lives in
`src/lib/validations`, absent from the available sources.  Per §6 of
the spec the request shape is `{inputKind: text|link|image|audio,
content: string}`, so validation accepts exactly those four kinds. -/
def analyzeSchemaOk (inputType : JStr) : Bool :=
  inputType = "text".data || inputType = "link".data ||
  inputType = "image".data || inputType = "audio".data

/-- Helper building the route's JSON error envelope. -/
def errorResponse (status : Nat) (kind msg : JStr) : RouteResponse :=
  { status := status, ok := false, errorKind := some kind
    message := some msg, result := none }

/-- The external collaborators of one `POST /api/check` request:
the rate-limit decision, the configuration flags, the URL-extraction
outcome (`extractFromUrl` and `isYouTubeUrl` live in
`src/lib/services/extractor`, absent from the available sources, so the
dispatcher's outcome is an oracle, per §4.4 of the spec), whether
`isValidUrl` accepts the URL (also from the absent `validations`
module), the Whisper service, and the analysis model. -/
structure RouteEnv where
  rlAllowed : Bool
  geminiConfigured : Bool
  urlValid : Bool
  isYT : Bool
  linkExtraction : ExtractionResult
  whisperKey : Option JStr
  whisper : WhisperEnv
  model : ModelOutput

/-- `POST(req)` for one already-parsed body `{inputType, content}`,
following steps 1–7 and 9 of the source (the step-8/9 Supabase writes
are best-effort side effects that do not alter the response). -/
def routePost (env : RouteEnv) (inputType content : JStr) : RouteResponse :=
  if !env.rlAllowed then
    errorResponse 429 "RATE_LIMITED".data "Muitas requisições. Aguarde um minuto.".data
  else if !analyzeSchemaOk inputType then
    errorResponse 400 "VALIDATION".data "Dados inválidos.".data
  else if !env.geminiConfigured then
    errorResponse 503 "SERVER_MISCONFIG".data
      "GEMINI_API_KEY não configurada no servidor (Vercel).".data
  else
    -- step 5: link extraction
    if inputType = "link".data ∧ !env.urlValid then
      errorResponse 400 "VALIDATION".data
        "URL inválida. Verifique o formato e tente novamente.".data
    else if inputType = "link".data ∧
        (!env.linkExtraction.ok ∨ env.linkExtraction.text = none ∨
         env.linkExtraction.text = some []) then
      errorResponse 422 "EXTRACTION_FAILED".data
        (env.linkExtraction.error.getD "Não foi possível extrair conteúdo do link.".data)
    else
      let audioResult := extractAudioTranscript env.whisperKey env.whisper content
      if inputType = "audio".data ∧
          (!audioResult.ok ∨ audioResult.text = none ∨ audioResult.text = some []) then
        errorResponse 422 "EXTRACTION_FAILED".data
          (audioResult.error.getD "Não foi possível transcrever o áudio.".data)
      else
        let textForAnalysis :=
          if inputType = "link".data then (env.linkExtraction.text.getD content)
          else if inputType = "audio".data then (audioResult.text.getD content)
          else content
        let sourceUrl :=
          if inputType = "link".data then env.linkExtraction.sourceUrl else none
        let extractionWarnings :=
          if inputType = "link".data then env.linkExtraction.warnings
          else if inputType = "audio".data then audioResult.warnings
          else []
        let effectiveInputType :=
          if inputType = "link".data then
            (if env.isYT then "youtube_transcript".data else "link".data)
          else if inputType = "audio".data then "audio_transcript".data
          else inputType
        -- step 6: sanitize for the text-bearing kinds
        let textForAnalysis2 :=
          if effectiveInputType = "text".data ∨
             effectiveInputType = "youtube_transcript".data ∨
             effectiveInputType = "audio_transcript".data ∨
             inputType = "link".data then
            sanitizeForLLM textForAnalysis 10000
          else textForAnalysis
        -- step 7: the analysis pipeline, then attach extraction metadata
        let result := analyzePipeline effectiveInputType textForAnalysis2 env.model
        let result2 := { result with
          sourceUrl := sourceUrl
          metaWarnings := result.metaWarnings ++ extractionWarnings }
        { status := 200, ok := result2.ok, errorKind := none, message := none
          result := some result2 }

/-! ## Theorems -/

/-- C9: the sanitizer is idempotent and length-capped: for every text
`x` and `maxLength`, `sanitize(sanitize(x))` equals `sanitize(x)`, and
`sanitize(x, maxLength)` never returns a string longer than
`maxLength`. -/
theorem sanitize_idempotent_bounded (text : JStr) (maxLength : Nat) :
    sanitizeForLLM (sanitizeForLLM text maxLength) maxLength =
      sanitizeForLLM text maxLength ∧
    (sanitizeForLLM text maxLength).length ≤ maxLength := by
  constructor
  · unfold sanitizeForLLM
    rw [List.filter_eq_self.mpr, List.take_take, Nat.min_self]
    intro a ha
    exact List.of_mem_filter (List.mem_of_mem_take ha)
  · exact List.length_take_le maxLength _

/-- C10: `analyzePipeline` never reports failure — for every input kind,
content and model outcome, the returned object has `ok = true` and
`meta.fingerprint` equal to the SHA-256 hex digest of the `content`
argument; when the model's response is not parseable JSON, the fixed
fallback object with verdict `Inconclusivo` and the default scores is
returned instead of an error. -/
theorem analyzePipeline_always_ok (inputType content : JStr) (model : ModelOutput) :
    (analyzePipeline inputType content model).ok = true ∧
    (analyzePipeline inputType content model).fingerprint = sha256Hex content ∧
    (model = ModelOutput.unparseable →
      (analyzePipeline inputType content model).verdict = "Inconclusivo".data ∧
      (analyzePipeline inputType content model).scores = fallbackScores) := by
  cases model <;> simp [analyzePipeline]

/-- Witness for `analyzePipeline_always_ok` at a concrete input. -/
theorem analyzePipeline_always_ok_wit :
    (analyzePipeline "text".data "abc".data ModelOutput.unparseable).ok = true ∧
    (analyzePipeline "text".data "abc".data ModelOutput.unparseable).fingerprint =
      sha256Hex "abc".data ∧
    (analyzePipeline "text".data "abc".data ModelOutput.unparseable).verdict =
      "Inconclusivo".data ∧
    (analyzePipeline "text".data "abc".data ModelOutput.unparseable).scores =
      fallbackScores := by
  obtain ⟨h1, h2, h3⟩ :=
    analyzePipeline_always_ok "text".data "abc".data ModelOutput.unparseable
  obtain ⟨h4, h5⟩ := h3 rfl
  exact ⟨h1, h2, h4, h5⟩

/-- C2 (counterexample): with the Upstash backend configured, a failing
backend call makes `checkRateLimitAsync` propagate the exception
(`Except.error`) instead of returning a `RateLimitDecision` — the
source awaits `limiter.limit(identifier)` without a `try`/`catch`. -/
theorem checkRateLimit_backend_failure_cx :
    checkRateLimitAsync true (BackendCall.rejects "network error".data) 0 [] =
      Except.error "network error".data := by
  rfl

/-- C2 (amended): `checkRateLimitAsync` returns a decision whenever the
distributed backend is not configured (the in-memory fallback decides)
or the configured backend call resolves; a rejected backend call
propagates as an exception to the caller. -/
theorem checkRateLimit_decision_shape (backend : BackendCall) (now : Nat) (ts : List Nat) :
    (checkRateLimitAsync false backend now ts = Except.ok (inMemoryCheck now ts)) ∧
    (∀ s r rst, checkRateLimitAsync true (BackendCall.resolves s r rst) now ts =
      Except.ok ((s, r), ts)) ∧
    (∀ msg, checkRateLimitAsync true (BackendCall.rejects msg) now ts =
      Except.error msg) := by
  refine ⟨rfl, fun s r rst => rfl, fun msg => rfl⟩

/-- The poll loop consumes at most `fuel` further attempts when it
finishes normally. -/
theorem pollLoopAux_le (env : Nat → PollOutcome) :
    ∀ (fuel attempts : Nat) (status : JStr) (res : JStr × Nat),
      pollLoopAux env fuel attempts status = Except.ok res →
      res.2 ≤ attempts + fuel := by
  intro fuel
  induction fuel with
  | zero =>
    intro attempts status res h
    cases h
    show attempts ≤ attempts + 0
    omega
  | succ n ih =>
    intro attempts status res h
    rw [pollLoopAux] at h
    split at h
    · cases henv : env (attempts + 1) <;> rw [henv] at h
      · cases h
      · exact (ih (attempts + 1) status res h).trans (by omega)
      · exact (ih (attempts + 1) _ res h).trans (by omega)
    · cases h
      show attempts ≤ attempts + (n + 1)
      omega

/-- If every poll outcome is a swallowed non-2xx response or reports
`PROCESSING`, the loop stays in `PROCESSING` and consumes all its
fuel. -/
theorem pollLoopAux_stuck (env : Nat → PollOutcome)
    (henv : ∀ n, env n = PollOutcome.httpError ∨ env n = PollOutcome.status PROCESSING) :
    ∀ (fuel attempts : Nat),
      pollLoopAux env fuel attempts PROCESSING =
        Except.ok (PROCESSING, attempts + fuel) := by
  intro fuel
  induction fuel with
  | zero => intro attempts; rfl
  | succ n ih =>
    intro attempts
    simp only [pollLoopAux, if_pos rfl]
    rcases henv (attempts + 1) with h | h <;>
      rw [h] <;>
      exact (ih (attempts + 1)).trans
        (congrArg (fun m => Except.ok (PROCESSING, m)) (by omega))

/-- C4 (counterexample): a network-level poll failure is not swallowed
and counted: the rejected fetch escapes the loop to the function's
`catch`, and the extraction aborts at once with the generic transcription
error — not after 60 attempts, and not with the timeout failure the
claim requires for failing polls. -/
theorem poll_network_error_cx :
    pollLoop (fun _ => PollOutcome.reject "fetch failed".data) PROCESSING =
      Except.error "fetch failed".data ∧
    extractAudioTranscript (some "k".data)
        { uploadOk := true, uploadStatus := 200, jobStatus := PROCESSING
          poll := fun _ => PollOutcome.reject "fetch failed".data
          downloadOk := true, downloadStatus := 200, srtText := [] }
        "data:audio/mpeg;base64,AAAA".data =
      { ok := false, text := none, segments := none, warnings := []
        error := some "Erro ao transcrever áudio: fetch failed".data } ∧
    ¬((extractAudioTranscript (some "k".data)
        { uploadOk := true, uploadStatus := 200, jobStatus := PROCESSING
          poll := fun _ => PollOutcome.reject "fetch failed".data
          downloadOk := true, downloadStatus := 200, srtText := [] }
        "data:audio/mpeg;base64,AAAA".data).error = some msgPollTimeout) := by
  refine ⟨rfl, ?_, ?_⟩
  · decide
  · decide

/-- C4 (amended): the poll loop is bounded at `MAX_POLL_ATTEMPTS = 60`
attempts for its normal exits; a non-2xx poll response is swallowed and
consumed as an attempt without changing the job status; a rejected poll
fetch (network error) instead throws out of the loop and the extraction
aborts immediately through the function's `catch` with a structured
`ok = false` error; and when the status never leaves `PROCESSING`
across swallowed or `PROCESSING`-reporting polls, the client exits
after exactly 60 poll attempts (a 60 × 3000 ms = 180-second ceiling)
with the structured timeout failure, never looping indefinitely. -/
theorem poll_loop_bounded_timeout :
    (∀ (env : Nat → PollOutcome) (initialStatus : JStr) (res : JStr × Nat),
       pollLoop env initialStatus = Except.ok res → res.2 ≤ MAX_POLL_ATTEMPTS) ∧
    (∀ (env : Nat → PollOutcome) (fuel attempts : Nat),
       env (attempts + 1) = PollOutcome.httpError →
       pollLoopAux env (fuel + 1) attempts PROCESSING =
         pollLoopAux env fuel (attempts + 1) PROCESSING) ∧
    (∀ (env : Nat → PollOutcome) (fuel attempts : Nat) (msg : JStr),
       env (attempts + 1) = PollOutcome.reject msg →
       pollLoopAux env (fuel + 1) attempts PROCESSING = Except.error msg) ∧
    (∀ (apiKey : JStr) (env : WhisperEnv) (audioDataUrl mime payload : JStr),
       parseDataUrlL audioDataUrl = some (mime, payload) →
       env.uploadOk = true →
       env.jobStatus = PROCESSING →
       (∀ n, env.poll n = PollOutcome.httpError ∨
             env.poll n = PollOutcome.status PROCESSING) →
       pollLoop env.poll PROCESSING = Except.ok (PROCESSING, MAX_POLL_ATTEMPTS) ∧
       MAX_POLL_ATTEMPTS * POLL_INTERVAL_MS = 180000 ∧
       extractAudioTranscript (some apiKey) env audioDataUrl =
         { ok := false, text := none, segments := none, warnings := []
           error := some msgPollTimeout }) ∧
    (∀ (apiKey : JStr) (env : WhisperEnv) (audioDataUrl mime payload msg : JStr),
       parseDataUrlL audioDataUrl = some (mime, payload) →
       env.uploadOk = true →
       env.jobStatus = PROCESSING →
       pollLoop env.poll PROCESSING = Except.error msg →
       ¬(msg = []) →
       extractAudioTranscript (some apiKey) env audioDataUrl =
         { ok := false, text := none, segments := none, warnings := []
           error := some ("Erro ao transcrever áudio: ".data ++ msg) }) := by
  refine ⟨?_, ?_, ?_, ?_, ?_⟩
  · intro env initialStatus res h
    exact pollLoopAux_le env MAX_POLL_ATTEMPTS 0 initialStatus res h
  · intro env fuel attempts h
    simp [pollLoopAux, h]
  · intro env fuel attempts msg h
    simp [pollLoopAux, h]
  · intro apiKey env audioDataUrl mime payload hparse hup hstatus hpoll
    have hloop : pollLoop env.poll PROCESSING =
        Except.ok (PROCESSING, MAX_POLL_ATTEMPTS) :=
      pollLoopAux_stuck env.poll hpoll MAX_POLL_ATTEMPTS 0
    refine ⟨hloop, by decide, ?_⟩
    simp only [extractAudioTranscript, hparse, hup, hstatus, hloop]
    rw [if_neg (by decide), if_pos (by decide), if_pos (by decide)]
  · intro apiKey env audioDataUrl mime payload msg hparse hup hstatus hloop hne
    have hemp : msg.isEmpty = false := by
      cases msg
      · exact absurd rfl hne
      · rfl
    simp only [extractAudioTranscript, hparse, hup, hstatus, hloop]
    rw [if_neg (by decide), hemp]
    rfl

/-- Witness for `poll_loop_bounded_timeout`: a service whose polls all
come back non-2xx keeps the job in `PROCESSING` and the extraction
times out after exactly 60 attempts; one whose poll fetch rejects makes
the extraction abort at once through the `catch`. -/
theorem poll_loop_bounded_timeout_wit :
    pollLoop (fun _ => PollOutcome.httpError) PROCESSING =
      Except.ok (PROCESSING, MAX_POLL_ATTEMPTS) ∧
    MAX_POLL_ATTEMPTS * POLL_INTERVAL_MS = 180000 ∧
    extractAudioTranscript (some "k".data)
        { uploadOk := true, uploadStatus := 200, jobStatus := PROCESSING
          poll := fun _ => PollOutcome.httpError, downloadOk := true
          downloadStatus := 200, srtText := [] }
        "data:audio/mpeg;base64,AAAA".data =
      { ok := false, text := none, segments := none, warnings := []
        error := some msgPollTimeout } ∧
    extractAudioTranscript (some "k".data)
        { uploadOk := true, uploadStatus := 200, jobStatus := PROCESSING
          poll := fun _ => PollOutcome.reject "boom".data, downloadOk := true
          downloadStatus := 200, srtText := [] }
        "data:audio/mpeg;base64,AAAA".data =
      { ok := false, text := none, segments := none, warnings := []
        error := some ("Erro ao transcrever áudio: ".data ++ "boom".data) } := by
  have h4 := poll_loop_bounded_timeout.2.2.2.1 "k".data
    { uploadOk := true, uploadStatus := 200, jobStatus := PROCESSING
      poll := fun _ => PollOutcome.httpError, downloadOk := true
      downloadStatus := 200, srtText := [] }
    "data:audio/mpeg;base64,AAAA".data "audio/mpeg".data "AAAA".data
    (by decide) rfl rfl (fun n => Or.inl rfl)
  have h5 := poll_loop_bounded_timeout.2.2.2.2 "k".data
    { uploadOk := true, uploadStatus := 200, jobStatus := PROCESSING
      poll := fun _ => PollOutcome.reject "boom".data, downloadOk := true
      downloadStatus := 200, srtText := [] }
    "data:audio/mpeg;base64,AAAA".data "audio/mpeg".data "AAAA".data "boom".data
    (by decide) rfl rfl rfl (by decide)
  exact ⟨h4.1, h4.2.1, h4.2.2, h5⟩

/-- C7: caption-extraction length policy: if the extracted
(whitespace-normalized) text is shorter than 100 characters, the
extractor fails with the inconclusive no-usable-transcript error; if it
is longer than 10,000 characters it is truncated to 10,000 characters
and a truncation warning is appended to the successful result's
warnings — the excess is never dropped silently; in between, the text
is kept whole and no warning is added. -/
theorem caption_length_policy (text videoId url : JStr) (warnings : List JStr) :
    ((entityClean text).length < 100 →
      buildTranscriptResult text videoId url warnings =
        { ok := false, text := none, title := none, sourceUrl := none
          warnings := warnings, error := some msgTooShort }) ∧
    (10000 < (entityClean text).length →
      (buildTranscriptResult text videoId url warnings).ok = true ∧
      (buildTranscriptResult text videoId url warnings).text =
        some ("[Transcrição do vídeo YouTube: ".data ++ videoId ++ "]".data ++
              [Char.ofNat 10, Char.ofNat 10] ++ (entityClean text).take 10000) ∧
      (buildTranscriptResult text videoId url warnings).warnings =
        warnings ++ [msgTruncated]) ∧
    (100 ≤ (entityClean text).length → (entityClean text).length ≤ 10000 →
      (buildTranscriptResult text videoId url warnings).ok = true ∧
      (buildTranscriptResult text videoId url warnings).text =
        some ("[Transcrição do vídeo YouTube: ".data ++ videoId ++ "]".data ++
              [Char.ofNat 10, Char.ofNat 10] ++ entityClean text) ∧
      (buildTranscriptResult text videoId url warnings).warnings = warnings) := by
  refine ⟨?_, ?_, ?_⟩
  · intro h
    simp only [buildTranscriptResult, if_pos h]
  · intro h
    have hn : ¬((entityClean text).length < 100) := by omega
    simp only [buildTranscriptResult, if_neg hn, if_pos h]
    exact ⟨by trivial, by trivial, by trivial⟩
  · intro h1 h2
    have hn : ¬((entityClean text).length < 100) := by omega
    have hn2 : ¬(10000 < (entityClean text).length) := by omega
    simp only [buildTranscriptResult, if_neg hn, if_neg hn2]
    exact ⟨by trivial, by trivial, by trivial⟩

/-- `dropWhile` is the identity when no element satisfies the predicate. -/
theorem dropWhile_of_none (p : Char → Bool) (l : JStr)
    (h : ∀ c ∈ l, p c = false) : l.dropWhile p = l := by
  cases l with
  | nil => rfl
  | cons c cs => simp [List.dropWhile_cons, h c (List.mem_cons_self c cs)]

/-- `wsCollapse`'s worker is the identity on whitespace-free input. -/
theorem wsCollapseAux_of_none :
    ∀ (fuel : Nat) (l : JStr), (∀ c ∈ l, isWsChar c = false) →
      wsCollapseAux fuel l = l := by
  intro fuel
  induction fuel with
  | zero => intro l h; cases l <;> rfl
  | succ n ih =>
    intro l h
    cases l with
    | nil => rfl
    | cons c cs =>
      simp only [wsCollapseAux, h c (List.mem_cons_self c cs), Bool.false_eq_true,
        if_false]
      exact congrArg (c :: ·) (ih cs (fun d hd => h d (List.mem_cons_of_mem c hd)))

/-- `replaceAll`'s worker is the identity when the pattern's first
character never occurs in the input. -/
theorem replaceAllAux_of_none (p : Char) (ps repl : JStr) :
    ∀ (fuel : Nat) (l : JStr), (∀ c ∈ l, (c = p) = False) →
      replaceAllAux (p :: ps) repl fuel l = l := by
  intro fuel
  induction fuel with
  | zero => intro l h; cases l <;> rfl
  | succ n ih =>
    intro l h
    cases l with
    | nil => rfl
    | cons c cs =>
      have hc : startsWithL (c :: cs) (p :: ps) = false := by
        simp [startsWithL, h c (List.mem_cons_self c cs)]
      simp only [replaceAllAux, hc, Bool.false_eq_true, if_false]
      exact congrArg (c :: ·) (ih cs (fun d hd => h d (List.mem_cons_of_mem c hd)))

/-- `entityClean` leaves a run of plain letters untouched. -/
theorem entityClean_replicate_b (n : Nat) :
    entityClean (List.replicate n 'b') = List.replicate n 'b' := by
  have hws : ∀ c ∈ List.replicate n 'b', isWsChar c = false := by
    intro c hc
    rw [List.eq_of_mem_replicate hc]
    decide
  have hamp : ∀ c ∈ List.replicate n 'b', (c = '&') = False := by
    intro c hc
    rw [List.eq_of_mem_replicate hc]
    simp
  unfold entityClean wsCollapse replaceAll jsTrim
  rw [wsCollapseAux_of_none _ _ hws]
  rw [replaceAllAux_of_none _ _ _ _ _ hamp, replaceAllAux_of_none _ _ _ _ _ hamp,
      replaceAllAux_of_none _ _ _ _ _ hamp, replaceAllAux_of_none _ _ _ _ _ hamp,
      replaceAllAux_of_none _ _ _ _ _ hamp]
  rw [dropWhile_of_none _ _ hws, List.reverse_replicate]
  rw [dropWhile_of_none _ _ hws, List.reverse_replicate]

/-- Witness for `caption_length_policy`: a 10-character transcript is
rejected as too short; a 10,050-character transcript is truncated with
the truncation warning appended; a 150-character transcript passes
through whole with no extra warning. -/
theorem caption_length_policy_wit :
    (buildTranscriptResult "short text".data "abc12345678".data "u".data [] =
      { ok := false, text := none, title := none, sourceUrl := none
        warnings := [], error := some msgTooShort }) ∧
    ((buildTranscriptResult (List.replicate 10050 'b') "abc12345678".data "u".data []).ok
        = true ∧
     (buildTranscriptResult (List.replicate 10050 'b') "abc12345678".data "u".data []).warnings
        = [msgTruncated]) ∧
    ((buildTranscriptResult (List.replicate 150 'b') "abc12345678".data "u".data []).ok
        = true ∧
     (buildTranscriptResult (List.replicate 150 'b') "abc12345678".data "u".data []).warnings
        = []) := by
  refine ⟨?_, ?_, ?_⟩
  · exact (caption_length_policy "short text".data "abc12345678".data "u".data []).1
      (by decide)
  · have h := (caption_length_policy (List.replicate 10050 'b') "abc12345678".data
      "u".data []).2.1 (by rw [entityClean_replicate_b, List.length_replicate]; omega)
    exact ⟨h.1, h.2.2⟩
  · have h := (caption_length_policy (List.replicate 150 'b') "abc12345678".data
      "u".data []).2.2 (by rw [entityClean_replicate_b, List.length_replicate]; omega)
      (by rw [entityClean_replicate_b, List.length_replicate]; omega)
    exact ⟨h.1, h.2.2⟩

/-- `buildTranscriptResult` never drops the warnings it is given. -/
theorem buildTranscript_keeps_warnings (w text videoId url : JStr)
    (warnings : List JStr) (hw : w ∈ warnings) :
    w ∈ (buildTranscriptResult text videoId url warnings).warnings := by
  simp only [buildTranscriptResult]
  split
  · exact hw
  · split
    · exact List.mem_append_left _ hw
    · exact hw

/-- C6: CaptionExtractor fallback policy: when the preferred-language
caption fetch resolves with zero items, the extractor issues exactly
one additional fetch without a language hint before declaring the
extraction failed; if the fallback fetch succeeds (non-empty items), a
warning noting the fallback language ends up in the result's warnings;
if it also yields nothing (or rejects), the extraction fails with the
no-captions error. -/
theorem caption_fallback_policy (fetch : Option JStr → FetchResult)
    (url videoId : JStr)
    (hid : findYtId url = some videoId)
    (hpt : fetch (some "pt".data) = FetchResult.items []) :
    (extractYouTubeTranscript fetch url).2 = [some "pt".data, none] ∧
    (∀ items, fetch none = FetchResult.items items → items ≠ [] →
       msgFallbackLang ∈ (extractYouTubeTranscript fetch url).1.warnings) ∧
    ((fetch none = FetchResult.items [] ∨ (∃ m, fetch none = FetchResult.err m)) →
       (extractYouTubeTranscript fetch url).1.ok = false ∧
       (extractYouTubeTranscript fetch url).1.error = some msgNoCaptions) := by
  refine ⟨?_, ?_, ?_⟩
  · rcases h2 : fetch none with items | msg
    · rcases items with _ | ⟨i, il⟩ <;> simp [extractYouTubeTranscript, hid, hpt, h2]
    · simp [extractYouTubeTranscript, hid, hpt, h2]
  · intro items h2 hne
    rcases items with _ | ⟨i, il⟩
    · exact absurd rfl hne
    · simp only [extractYouTubeTranscript, hid, hpt, h2, List.isEmpty_nil,
        List.isEmpty_cons, if_true, Bool.false_eq_true, if_false]
      exact buildTranscript_keeps_warnings _ _ _ _ _ (List.mem_singleton.mpr rfl)
  · intro h2
    rcases h2 with h2 | ⟨m, h2⟩ <;> simp [extractYouTubeTranscript, hid, hpt, h2]

/-- Witness for `caption_fallback_policy`: a source with no `pt`
captions but an unrestricted track leads to exactly the two fetches and
the fallback-language warning. -/
theorem caption_fallback_policy_wit :
    (extractYouTubeTranscript
        (fun h => match h with
          | some _ => FetchResult.items []
          | none => FetchResult.items ["hello".data])
        "https://youtu.be/abc12345678".data).2 = [some "pt".data, none] ∧
    msgFallbackLang ∈ (extractYouTubeTranscript
        (fun h => match h with
          | some _ => FetchResult.items []
          | none => FetchResult.items ["hello".data])
        "https://youtu.be/abc12345678".data).1.warnings := by
  have h := caption_fallback_policy
    (fun h => match h with
      | some _ => FetchResult.items []
      | none => FetchResult.items ["hello".data])
    "https://youtu.be/abc12345678".data "abc12345678".data (by decide) rfl
  exact ⟨h.1, h.2.1 ["hello".data] rfl (by decide)⟩

/-- A demonstration SRT document: a well-formed spoken block, a block
with a malformed timecode line, an instrumental block, and a 2-line
block. -/
def demoSrt : JStr :=
  "1\n00:00:00,000 --> 00:00:02,000\nhello world\n\n2\nbadline\nskipped text\n\n3\n00:00:02,000 --> 00:00:04,000\n🎵\n\nshort\nblock".data

/-- The spoken segment parsed from `demoSrt`. -/
def demoSeg1 : SrtSegment :=
  { index := "1".data, start := "00:00:00,000".data, endTime := "00:00:02,000".data
    text := "hello world".data, instrumental := false }

/-- The instrumental segment parsed from `demoSrt`. -/
def demoSegMusic : SrtSegment :=
  { index := "3".data, start := "00:00:02,000".data, endTime := "00:00:04,000".data
    text := musicNote, instrumental := true }

/-- C5: subtitle-document parsing is lenient: every block with fewer
than 3 lines, and every block whose timecode line lacks the ` --> `
separator, is skipped (yields no segment) rather than causing failure;
a block whose joined text is exactly, or contains, the music-note
glyph is marked instrumental; and instrumental segments are excluded
from the flattened transcript text while being present in the parsed
segment sequence returned to the caller. -/
theorem srt_parsing_lenient_instrumental :
    (∀ b : JStr, (jsSplit [Char.ofNat 10] b).length < 3 → parseBlock b = none) ∧
    (∀ b : JStr,
       (jsSplit " --> ".data ((jsSplit [Char.ofNat 10] b).getD 1 [])).length < 2 →
       parseBlock b = none) ∧
    (∀ (b : JStr) (seg : SrtSegment), parseBlock b = some seg →
       (seg.text = musicNote → seg.instrumental = true) ∧
       (containsL seg.text musicNote = true → seg.instrumental = true)) ∧
    (∀ (srt b : JStr) (seg : SrtSegment), b ∈ splitBlocks srt →
       parseBlock b = some seg → seg ∈ srtToJson srt) ∧
    (∀ segments : List SrtSegment,
       segmentsToText segments =
         segmentsToText (segments.filter (fun s => !s.instrumental))) ∧
    (srtToJson demoSrt = [demoSeg1, demoSegMusic] ∧
     segmentsToText (srtToJson demoSrt) = "hello world".data) := by
  refine ⟨?_, ?_, ?_, ?_, ?_, ?_⟩
  · intro b h
    simp only [parseBlock]
    rw [if_pos h]
  · intro b h
    simp only [parseBlock]
    by_cases h3 : (jsSplit [Char.ofNat 10] b).length < 3
    · rw [if_pos h3]
    · rw [if_neg h3, if_pos h]
  · intro b seg h
    simp only [parseBlock] at h
    split at h
    · exact absurd h (by simp)
    · split at h
      · exact absurd h (by simp)
      · cases h
        refine ⟨fun ht => ?_, fun hc => ?_⟩
        · dsimp only
          simp only [Bool.or_eq_true, decide_eq_true_eq]
          exact Or.inl ht
        · dsimp only
          simp only [Bool.or_eq_true, decide_eq_true_eq]
          exact Or.inr hc
  · intro srt b seg hb hp
    exact List.mem_filterMap.mpr ⟨b, hb, hp⟩
  · intro segments
    simp only [segmentsToText, List.filter_filter, Bool.and_self]
  · constructor
    · decide
    · decide

/-- Witness for `srt_parsing_lenient_instrumental`: a 2-line block and
a block with a bad timecode line are both skipped; the music-note block
of the demonstration document yields an instrumental segment that sits
in the parsed sequence. -/
theorem srt_parsing_lenient_instrumental_wit :
    parseBlock "short\nblock".data = none ∧
    parseBlock "2\nbadline\nskipped text".data = none ∧
    demoSegMusic.instrumental = true ∧
    demoSegMusic ∈ srtToJson demoSrt := by
  refine ⟨?_, ?_, ?_, ?_⟩
  · exact srt_parsing_lenient_instrumental.1 "short\nblock".data (by decide)
  · exact srt_parsing_lenient_instrumental.2.1 "2\nbadline\nskipped text".data (by decide)
  · exact (srt_parsing_lenient_instrumental.2.2.1
      "3\n00:00:02,000 --> 00:00:04,000\n🎵".data demoSegMusic (by decide)).1 (by decide)
  · exact srt_parsing_lenient_instrumental.2.2.2.1 demoSrt
      "3\n00:00:02,000 --> 00:00:04,000\n🎵".data demoSegMusic (by decide) (by decide)

/-- An extraction result used as the inert `linkExtraction` slot for
non-link requests. -/
def noExtraction : ExtractionResult :=
  { ok := false, text := none, title := none, sourceUrl := none
    warnings := [], error := none }

/-- A Whisper service that immediately finishes and serves `srt`. -/
def doneWhisper (srt : JStr) : WhisperEnv :=
  { uploadOk := true, uploadStatus := 200, jobStatus := DONE
    poll := fun _ => PollOutcome.httpError, downloadOk := true
    downloadStatus := 200, srtText := srt }

/-- A route environment for an audio request against `doneWhisper srt`. -/
def audioEnv (key : Option JStr) (srt : JStr) : RouteEnv :=
  { rlAllowed := true, geminiConfigured := true, urlValid := true, isYT := false
    linkExtraction := noExtraction, whisperKey := key
    whisper := doneWhisper srt, model := ModelOutput.unparseable }

/-- A valid audio data-URL used by the concrete route scenarios. -/
def demoAudioUrl : JStr := "data:audio/mpeg;base64,AAAA".data

/-- C8 (counterexample): an audio request with the transcription-service
API key absent (`WHISPER_SRT_API_KEY` unset) is answered with HTTP 422
`EXTRACTION_FAILED` carrying the misconfiguration message — not with the
503 misconfiguration status the claim requires for every absent
upstream credential. -/
theorem whisper_misconfig_cx :
    (routePost (audioEnv none "x".data) "audio".data demoAudioUrl).status = 422 ∧
    (routePost (audioEnv none "x".data) "audio".data demoAudioUrl).errorKind =
      some "EXTRACTION_FAILED".data ∧
    (routePost (audioEnv none "x".data) "audio".data demoAudioUrl).message =
      some msgWhisperNoKey ∧
    ¬((routePost (audioEnv none "x".data) "audio".data demoAudioUrl).status = 503) ∧
    ¬((routePost (audioEnv none "x".data) "audio".data demoAudioUrl).errorKind =
      some "SERVER_MISCONFIG".data) := by
  decide

/-- C8 (amended): a request that requires the analysis-model credential
while it is absent is answered 503 `SERVER_MISCONFIG` with a
machine-readable kind and human-readable message; but the
transcription-service credential for audio requests is surfaced as a
422 `EXTRACTION_FAILED` whose message carries the misconfiguration
text, not as a 503. -/
theorem credential_misconfig_responses :
    (∀ (env : RouteEnv) (it content : JStr),
       env.rlAllowed = true → analyzeSchemaOk it = true →
       env.geminiConfigured = false →
       routePost env it content =
         errorResponse 503 "SERVER_MISCONFIG".data
           "GEMINI_API_KEY não configurada no servidor (Vercel).".data) ∧
    (∀ (env : RouteEnv) (content : JStr),
       env.rlAllowed = true → env.geminiConfigured = true →
       env.whisperKey = none →
       routePost env "audio".data content =
         errorResponse 422 "EXTRACTION_FAILED".data msgWhisperNoKey) := by
  constructor
  · intro env it content h1 h2 h3
    simp [routePost, h1, h2, h3]
  · intro env content h1 h2 h3
    simp only [routePost, h1, h2, h3, Bool.not_true, Bool.false_eq_true, if_false,
      extractAudioTranscript]
    norm_num [analyzeSchemaOk]

/-- Witness for `credential_misconfig_responses` at concrete inputs. -/
theorem credential_misconfig_responses_wit :
    (routePost { audioEnv (some "k".data) "x".data with geminiConfigured := false }
        "text".data "hello".data =
      errorResponse 503 "SERVER_MISCONFIG".data
        "GEMINI_API_KEY não configurada no servidor (Vercel).".data) ∧
    (routePost (audioEnv none "x".data) "audio".data demoAudioUrl =
      errorResponse 422 "EXTRACTION_FAILED".data msgWhisperNoKey) :=
  ⟨credential_misconfig_responses.1
      { audioEnv (some "k".data) "x".data with geminiConfigured := false }
      "text".data "hello".data rfl (by decide) rfl,
   credential_misconfig_responses.2 (audioEnv none "x".data) demoAudioUrl rfl rfl rfl⟩

/-- An SRT document transcribing `hello world`. -/
def srtHello : JStr := "1\n00:00:00,000 --> 00:00:02,000\nhello world".data

/-- An SRT document transcribing `howdy world`. -/
def srtHowdy : JStr := "1\n00:00:00,000 --> 00:00:02,000\nhowdy world".data

/-- The fingerprint of `analyzePipeline` is always the digest of its
`content` argument, whatever the model answers. -/
theorem analyzePipeline_fingerprint (inputType content : JStr) (model : ModelOutput) :
    (analyzePipeline inputType content model).fingerprint = sha256Hex content := by
  cases model <;> rfl

/-- C1 (counterexample): two audio requests with identical raw `content`
but different transcription outcomes (a flaky upstream) are both
answered 200 yet carry different fingerprints, and neither fingerprint
is the digest of the raw submitted content — the source hashes the
text handed to the analysis pipeline, not the raw submission. -/
theorem fingerprint_raw_content_cx :
    ((routePost (audioEnv (some "k".data) srtHello) "audio".data demoAudioUrl).result.map
        AnalysisResult.fingerprint ≠
     (routePost (audioEnv (some "k".data) srtHowdy) "audio".data demoAudioUrl).result.map
        AnalysisResult.fingerprint) ∧
    (routePost (audioEnv (some "k".data) srtHello) "audio".data demoAudioUrl).status = 200 ∧
    (routePost (audioEnv (some "k".data) srtHowdy) "audio".data demoAudioUrl).status = 200 ∧
    ((routePost (audioEnv (some "k".data) srtHello) "audio".data demoAudioUrl).result.map
        AnalysisResult.fingerprint ≠ some (sha256Hex demoAudioUrl)) := by
  decide

/-- C1 (amended): the fingerprint is computed deterministically over the
text handed to the analysis pipeline — for a `text` request the
sanitized raw content, for an `audio` request the sanitized extracted
transcript.  Identical raw `text` submissions therefore share a
fingerprint, while for `audio` (and `link`) requests the fingerprint
follows the extracted text, so flaky extraction may map identical raw
submissions to different fingerprints. -/
theorem fingerprint_over_pipeline_text :
    (∀ (env : RouteEnv) (content : JStr),
       env.rlAllowed = true → env.geminiConfigured = true →
       (routePost env "text".data content).result.map AnalysisResult.fingerprint =
         some (sha256Hex (sanitizeForLLM content 10000))) ∧
    (∀ (env : RouteEnv) (content t : JStr),
       env.rlAllowed = true → env.geminiConfigured = true →
       (extractAudioTranscript env.whisperKey env.whisper content).ok = true →
       (extractAudioTranscript env.whisperKey env.whisper content).text = some t →
       ¬(t = []) →
       (routePost env "audio".data content).result.map AnalysisResult.fingerprint =
         some (sha256Hex (sanitizeForLLM t 10000))) := by
  constructor
  · intro env content h1 h2
    simp [routePost, h1, h2, analyzeSchemaOk, analyzePipeline_fingerprint]
  · intro env content t h1 h2 hok htext hne
    simp [routePost, h1, h2, hok, htext, hne, analyzeSchemaOk, analyzePipeline_fingerprint]

/-- Witness for `fingerprint_over_pipeline_text` at concrete inputs. -/
theorem fingerprint_over_pipeline_text_wit :
    ((routePost (audioEnv (some "k".data) srtHello) "text".data "hello".data).result.map
        AnalysisResult.fingerprint =
      some (sha256Hex (sanitizeForLLM "hello".data 10000))) ∧
    ((routePost (audioEnv (some "k".data) srtHello) "audio".data demoAudioUrl).result.map
        AnalysisResult.fingerprint =
      some (sha256Hex (sanitizeForLLM "hello world".data 10000))) :=
  ⟨fingerprint_over_pipeline_text.1 (audioEnv (some "k".data) srtHello) "hello".data
      rfl rfl,
   fingerprint_over_pipeline_text.2 (audioEnv (some "k".data) srtHello) demoAudioUrl
      "hello world".data rfl rfl (by decide) (by decide) (by decide)⟩

/-- Purging at a later instant subsumes an earlier purge. -/
theorem purge_purge (prev now : Nat) (hpn : prev ≤ now) (A : List Nat) :
    purge now (purge prev A) = purge now A := by
  unfold purge
  rw [List.filter_filter]
  apply List.filter_congr
  intro a _
  by_cases h : now - a < windowMs
  · have h2 : prev - a < windowMs := by omega
    simp [h, h2]
  · simp [h]

/-- A pointwise-stronger predicate filters out no more elements. -/
theorem length_filter_mono (p q : Nat → Bool) (l : List Nat)
    (h : ∀ a ∈ l, p a = true → q a = true) :
    (l.filter p).length ≤ (l.filter q).length := by
  rw [← List.countP_eq_length_filter, ← List.countP_eq_length_filter]
  exact List.countP_mono_left h

/-- Appending the present instant survives the purge at that instant. -/
theorem purge_append_now (now : Nat) (A : List Nat) :
    purge now (A ++ [now]) = purge now A ++ [now] := by
  unfold purge
  rw [List.filter_append]
  simp [windowMs]

/-- The inductive invariant of the sliding window: starting from a
state that is the window-purge of an allowed-history `A` bounded by
`maxRequests` in every trailing window, every extended history stays
bounded by `maxRequests` in every trailing window. -/
theorem runAllowed_window_aux :
    ∀ (times A : List Nat) (prev : Nat),
      List.Pairwise (· ≤ ·) times →
      (∀ t ∈ times, prev ≤ t) →
      (∀ a ∈ A, a ≤ prev) →
      (∀ T, (A.filter (fun a => inWindow T a)).length ≤ maxRequests) →
      ∀ T, ((A ++ runAllowed (purge prev A) times).filter
              (fun a => inWindow T a)).length ≤ maxRequests := by
  intro times
  induction times with
  | nil =>
    intro A prev _ _ _ hH T
    simpa [runAllowed] using hH T
  | cons now rest ih =>
    intro A prev hpw htimes hA hH T
    have hprev_now : prev ≤ now := htimes now (List.mem_cons_self _ _)
    rw [List.pairwise_cons] at hpw
    have hA_now : ∀ a ∈ A, a ≤ now := fun a ha => (hA a ha).trans hprev_now
    have hkey : purge now (purge prev A) = purge now A :=
      purge_purge prev now hprev_now A
    simp only [runAllowed, inMemoryCheck, hkey]
    by_cases hc : maxRequests ≤ (purge now A).length
    · rw [if_pos hc]
      simp only [Bool.false_eq_true, if_false]
      exact ih A now hpw.2 hpw.1 hA_now hH T
    · rw [if_neg hc]
      simp only [if_true]
      have hH2 : ∀ T2, ((A ++ [now]).filter (fun a => inWindow T2 a)).length ≤
          maxRequests := by
        intro T2
        rw [List.filter_append]
        by_cases hn : inWindow T2 now
        · have hsub : (A.filter (fun a => inWindow T2 a)).length ≤
              (purge now A).length := by
            apply length_filter_mono
            intro a ha hpa
            simp only [inWindow, Bool.and_eq_true, decide_eq_true_eq] at hpa hn
            have h1 := hA_now a ha
            simp only [purge, decide_eq_true_eq]
            omega
          have hone : (([now] : List Nat).filter
              (fun a => inWindow T2 a)).length = 1 := by
            simp [hn]
          rw [List.length_append, hone]
          omega
        · have hzero : (([now] : List Nat).filter
              (fun a => inWindow T2 a)).length = 0 := by
            simp [hn]
          rw [List.length_append, hzero]
          simpa using hH T2
      have hrec := ih (A ++ [now]) now hpw.2 hpw.1
        (by
          intro a ha
          rcases List.mem_append.mp ha with h | h
          · exact hA_now a h
          · simp only [List.mem_singleton] at h
            omega)
        hH2 T
      rw [purge_append_now] at hrec
      simpa [List.append_assoc] using hrec

/-- C3: the in-process sliding window: a check at capacity is denied
with `remaining = 0` and no timestamp appended (only the purge mutates
state); a check under capacity appends the current timestamp and
reports `capacity - newLength` as remaining; along any nondecreasing
sequence of check instants, at most 10 checks are allowed within any
trailing 60-second window; and when the purge leaves exactly
`capacity - 1` timestamps (the oldest aged out), exactly one slot is
restored: the next check is allowed and the one after it at the same
instant is denied. -/
theorem inMemory_sliding_window_policy :
    (∀ (now : Nat) (ts : List Nat), maxRequests ≤ (purge now ts).length →
       inMemoryCheck now ts = ((false, 0), purge now ts)) ∧
    (∀ (now : Nat) (ts : List Nat), (purge now ts).length < maxRequests →
       inMemoryCheck now ts =
         ((true, maxRequests - ((purge now ts).length + 1)), purge now ts ++ [now])) ∧
    (∀ times : List Nat, List.Pairwise (· ≤ ·) times →
       ∀ T, ((runAllowed [] times).filter (fun t => inWindow T t)).length ≤
         maxRequests) ∧
    (∀ (now : Nat) (ts : List Nat), (purge now ts).length = maxRequests - 1 →
       (inMemoryCheck now ts).1.1 = true ∧
       (inMemoryCheck now ((inMemoryCheck now ts).2)).1.1 = false) := by
  refine ⟨?_, ?_, ?_, ?_⟩
  · intro now ts h
    simp only [inMemoryCheck]
    rw [if_pos h]
  · intro now ts h
    simp only [inMemoryCheck]
    rw [if_neg (by omega)]
  · intro times hpw T
    have h := runAllowed_window_aux times [] 0 hpw
      (fun t _ => Nat.zero_le t) (by simp) (by simp) T
    simpa [purge] using h
  · intro now ts h
    have hlt : ¬(maxRequests ≤ (purge now ts).length) := by
      rw [h]; decide
    constructor
    · simp only [inMemoryCheck]
      rw [if_neg hlt]
    · simp only [inMemoryCheck]
      rw [if_neg hlt]
      simp only []
      have hre : purge now (purge now ts ++ [now]) = purge now ts ++ [now] := by
        rw [purge_append_now, purge_purge now now (Nat.le_refl now)]
      rw [hre, if_pos (by rw [List.length_append, h, List.length_singleton]; decide)]

/-- Witness for `inMemory_sliding_window_policy`: ten stamps in the
window deny the eleventh; an empty window allows with nine remaining;
eleven same-instant checks yield at most ten allowed; with the oldest
of ten stamps aged out, one check is allowed and the next denied. -/
theorem inMemory_sliding_window_policy_wit :
    (inMemoryCheck 5 [0, 0, 0, 0, 0, 0, 0, 0, 0, 0] =
      ((false, 0), [0, 0, 0, 0, 0, 0, 0, 0, 0, 0])) ∧
    (inMemoryCheck 7 [] = ((true, 9), [7])) ∧
    (((runAllowed [] [0, 0, 0, 0, 0, 0, 0, 0, 0, 0, 0]).filter
        (fun t => inWindow 0 t)).length ≤ maxRequests) ∧
    ((inMemoryCheck 60000 [0, 1, 1, 1, 1, 1, 1, 1, 1, 1]).1.1 = true ∧
     (inMemoryCheck 60000
        ((inMemoryCheck 60000 [0, 1, 1, 1, 1, 1, 1, 1, 1, 1]).2)).1.1 = false) := by
  refine ⟨?_, ?_, ?_, ?_⟩
  · have h := inMemory_sliding_window_policy.1 5
      [0, 0, 0, 0, 0, 0, 0, 0, 0, 0] (by decide)
    rw [h]
    decide
  · have h := inMemory_sliding_window_policy.2.1 7 [] (by decide)
    rw [h]
    decide
  · exact inMemory_sliding_window_policy.2.2.1
      [0, 0, 0, 0, 0, 0, 0, 0, 0, 0, 0] (by decide) 0
  · exact inMemory_sliding_window_policy.2.2.2 60000
      [0, 1, 1, 1, 1, 1, 1, 1, 1, 1] (by decide)

end FNV
